import Mathlib

/-!
Verification of the credential-resolution and facade logic of
`pkg/awsclient/client.go` (cloud-ingress-operator).

The Go code is shallowly embedded: the Kubernetes client and the AWS SDK
session constructor are modelled as oracles in an `Env` record, and the
observable side effects of a resolution run (the secret lookup, the writes
to the process environment, the construction of an SDK session) are
collected in an explicit event trace returned next to the result.
Byte-string secret values are modelled as `String` (the Go code converts
the fetched `[]byte` values with `string(...)` before use).
-/

/-- The constant `awsCredsSecretIDKey` of client.go. -/
def awsCredsSecretIDKey : String := "aws_access_key_id"

/-- The constant `awsCredsSecretAccessKey` of client.go. -/
def awsCredsSecretAccessKey : String := "aws_secret_access_key"

/-- The input structure `NewAwsClientInput` of client.go, with its six fields. -/
structure NewAwsClientInput where
  AwsCredsSecretIDKey : String
  AwsCredsSecretAccessKey : String
  AwsToken : String
  AwsRegion : String
  SecretName : String
  NameSpace : String
deriving DecidableEq, Repr

/-- The `aws.Config` value built by `NewClient`: a region plus optional static
credentials `(accessID, accessSecret, token)` set only on the token branch. -/
structure AwsConfig where
  region : String
  credentials : Option (String × String × String)
deriving DecidableEq, Repr

/-- An SDK session as returned by `session.NewSession`; it carries the config
it was built from. -/
structure Session where
  config : AwsConfig
deriving DecidableEq, Repr

/-- The facade `AwsClient` of client.go: four service clients, each built
from the same session (`ec2.New(s)`, `elb.New(s)`, `elbv2.New(s)`,
`route53.New(s)`). -/
structure AwsClient where
  ec2Client : Session
  route53Client : Session
  elbClient : Session
  elbv2Client : Session
deriving DecidableEq, Repr

/-- A fetched Kubernetes secret (`corev1.Secret`): its `Data` map from field
names to byte-string values, as an association list. -/
structure Secret where
  Data : List (String × String)
deriving DecidableEq, Repr

/-- Observable external effects of a resolution run. -/
inductive Event where
  /-- `kubeClient.Get` on the named secret. -/
  | secretLookup (name ns : String)
  /-- `os.Setenv key value`. -/
  | setEnv (key value : String)
  /-- `session.NewSession awsConfig`. -/
  | newSession (config : AwsConfig)
deriving DecidableEq, Repr

/-- The external collaborators: the Kubernetes client (a key-value fetch by
name and namespace) and the SDK session constructor. -/
structure Env where
  kubeGet : String → String → Except String Secret
  newSession : AwsConfig → Except String Session

/-- `NewClient` of client.go: build an `aws.Config` with the region; with an
empty token, write the access key and secret into the process environment
variables, otherwise attach static credentials; then construct a session and
the four service clients from it.  Returns the result together with the
event trace. -/
def NewClient (env : Env) (accessID accessSecret token region : String) :
    Except String AwsClient × List Event :=
  let awsConfig : AwsConfig :=
    if token = "" then { region := region, credentials := none }
    else { region := region, credentials := some (accessID, accessSecret, token) }
  let envWrites : List Event :=
    if token = "" then
      [Event.setEnv "AWS_ACCESS_KEY_ID" accessID,
       Event.setEnv "AWS_SECRET_ACCESS_KEY" accessSecret]
    else []
  match env.newSession awsConfig with
  | Except.error e => (Except.error e, envWrites ++ [Event.newSession awsConfig])
  | Except.ok s =>
      (Except.ok { ec2Client := s, elbClient := s, elbv2Client := s, route53Client := s },
       envWrites ++ [Event.newSession awsConfig])

/-- `GetAWSClient` of client.go: reject an empty region; on a full secret
reference (name and namespace both non-empty) fetch the secret, require the
two credential fields by key, and build the client from their values;
otherwise reject an empty inline access key paired with a non-empty inline
secret, and build the client from the inline fields. -/
def GetAWSClient (env : Env) (input : NewAwsClientInput) :
    Except String AwsClient × List Event :=
  if input.AwsRegion = "" then
    (Except.error ("getAWSClient:NoRegion: " ++ input.AwsRegion), [])
  else if input.SecretName ≠ "" ∧ input.NameSpace ≠ "" then
    let lookupEv := Event.secretLookup input.SecretName input.NameSpace
    match env.kubeGet input.SecretName input.NameSpace with
    | Except.error e => (Except.error e, [lookupEv])
    | Except.ok secret =>
        match secret.Data.lookup awsCredsSecretIDKey with
        | none =>
            (Except.error ("AWS credentials secret " ++ input.SecretName ++
              " did not contain key " ++ awsCredsSecretIDKey), [lookupEv])
        | some accessKeyID =>
            match secret.Data.lookup awsCredsSecretAccessKey with
            | none =>
                (Except.error ("AWS credentials secret " ++ input.SecretName ++
                  " did not contain key " ++ awsCredsSecretAccessKey), [lookupEv])
            | some secretAccessKey =>
                let r := NewClient env accessKeyID secretAccessKey input.AwsToken input.AwsRegion
                (r.1, lookupEv :: r.2)
  else if input.AwsCredsSecretIDKey = "" ∧ input.AwsCredsSecretAccessKey ≠ "" then
    (Except.error "getAWSClient: NoAwsCredentials or Secret", [])
  else
    NewClient env input.AwsCredsSecretIDKey input.AwsCredsSecretAccessKey
      input.AwsToken input.AwsRegion

/-- A concrete environment for witnesses: the secret store is empty and
session construction always succeeds. -/
def envOk : Env :=
  { kubeGet := fun _ _ => Except.error "secret not found",
    newSession := fun c => Except.ok { config := c } }

/-- An environment for witnesses whose store holds one secret, under the name
and namespace given, with the given data. -/
def envWith (name ns : String) (data : List (String × String)) : Env :=
  { kubeGet := fun n s =>
      if n = name ∧ s = ns then Except.ok { Data := data }
      else Except.error "secret not found",
    newSession := fun c => Except.ok { config := c } }

/-- Whether an event is a lookup call to the key-value collaborator. -/
def isSecretLookup : Event → Bool
  | Event.secretLookup _ _ => true
  | _ => false

/-- Number of secret-lookup calls recorded in a trace. -/
def countLookups (evs : List Event) : Nat :=
  evs.countP isSecretLookup

/-- The trace of `NewClient` is fully determined by its string arguments:
the environment writes (on an empty token) followed by the session
construction on the config it built. -/
theorem newClient_trace (env : Env) (accessID accessSecret token region : String) :
    (NewClient env accessID accessSecret token region).2 =
      (if token = "" then
        [Event.setEnv "AWS_ACCESS_KEY_ID" accessID,
         Event.setEnv "AWS_SECRET_ACCESS_KEY" accessSecret]
       else []) ++
      [Event.newSession
        (if token = "" then { region := region, credentials := none }
         else { region := region, credentials := some (accessID, accessSecret, token) })] := by
  unfold NewClient
  by_cases htok : token = "" <;>
    · simp only [htok, if_pos, if_neg, ite_true, ite_false]
      rcases env.newSession _ with e | s <;> rfl

/-- `NewClient` never calls the key-value collaborator: its trace holds only
environment writes and the session construction. -/
theorem newClient_no_lookup (env : Env) (accessID accessSecret token region : String) :
    countLookups (NewClient env accessID accessSecret token region).2 = 0 := by
  rw [countLookups, newClient_trace]
  by_cases htok : token = "" <;> simp [htok, isSecretLookup]

/-- Claim C1: for every environment and every input whose region is empty,
`GetAWSClient` fails with the no-region configuration error and the event
trace is empty: no secret lookup, no environment write, and no session
construction happens, whatever the other five fields hold. -/
theorem getAWSClient_empty_region_fails_without_calls
    (env : Env) (input : NewAwsClientInput) (h : input.AwsRegion = "") :
    GetAWSClient env input =
      (Except.error ("getAWSClient:NoRegion: " ++ input.AwsRegion), []) := by
  simp [GetAWSClient, h]

/-- Witness for C1 at a concrete input with all other fields non-empty. -/
theorem getAWSClient_empty_region_fails_without_calls_witness :
    GetAWSClient envOk
      { AwsCredsSecretIDKey := "AKIA", AwsCredsSecretAccessKey := "sk",
        AwsToken := "tok", AwsRegion := "", SecretName := "aws-creds",
        NameSpace := "default" } =
      (Except.error "getAWSClient:NoRegion: ", []) :=
  getAWSClient_empty_region_fails_without_calls envOk _ rfl

/-- Claim C2: on the secret-reference path (secret name and namespace both
non-empty) at most one lookup call is issued; when the fetched record lacks
`aws_access_key_id`, or holds it but lacks `aws_secret_access_key`,
resolution fails with an error naming the secret and the missing field and
the trace holds nothing beyond that single lookup. -/
theorem getAWSClient_secret_path_single_lookup_missing_field
    (env : Env) (input : NewAwsClientInput)
    (hr : input.AwsRegion ≠ "") (hs : input.SecretName ≠ "") (hn : input.NameSpace ≠ "") :
    countLookups (GetAWSClient env input).2 ≤ 1 ∧
    ∀ secret, env.kubeGet input.SecretName input.NameSpace = Except.ok secret →
      (secret.Data.lookup awsCredsSecretIDKey = none →
        GetAWSClient env input =
          (Except.error ("AWS credentials secret " ++ input.SecretName ++
            " did not contain key " ++ awsCredsSecretIDKey),
           [Event.secretLookup input.SecretName input.NameSpace])) ∧
      (secret.Data.lookup awsCredsSecretAccessKey = none →
        ∀ v, secret.Data.lookup awsCredsSecretIDKey = some v →
          GetAWSClient env input =
            (Except.error ("AWS credentials secret " ++ input.SecretName ++
              " did not contain key " ++ awsCredsSecretAccessKey),
             [Event.secretLookup input.SecretName input.NameSpace])) := by
  constructor
  · unfold GetAWSClient
    rw [if_neg hr, if_pos ⟨hs, hn⟩]
    rcases env.kubeGet input.SecretName input.NameSpace with e | secret
    · simp [countLookups, isSecretLookup]
    · rcases hid : secret.Data.lookup awsCredsSecretIDKey with _ | v
      · simp [hid, countLookups, isSecretLookup]
      · rcases hsk : secret.Data.lookup awsCredsSecretAccessKey with _ | w
        · simp [hid, hsk, countLookups, isSecretLookup]
        · have h0 := newClient_no_lookup env v w input.AwsToken input.AwsRegion
          rw [countLookups] at h0
          simp [hid, hsk, countLookups, isSecretLookup, h0]
  · intro secret hget
    constructor
    · intro hid
      unfold GetAWSClient
      rw [if_neg hr, if_pos ⟨hs, hn⟩]
      simp [hget, hid]
    · intro hsk v hid
      unfold GetAWSClient
      rw [if_neg hr, if_pos ⟨hs, hn⟩]
      simp [hget, hid, hsk]

/-- Witness for C2: the stored secret `x` in namespace `y` holds only
`aws_access_key_id`, and resolution fails naming `aws_secret_access_key`,
with exactly the one lookup in the trace. -/
theorem getAWSClient_secret_path_single_lookup_missing_field_witness :
    GetAWSClient (envWith "x" "y" [("aws_access_key_id", "AK")])
      { AwsCredsSecretIDKey := "", AwsCredsSecretAccessKey := "", AwsToken := "",
        AwsRegion := "us-east-1", SecretName := "x", NameSpace := "y" } =
      (Except.error "AWS credentials secret x did not contain key aws_secret_access_key",
       [Event.secretLookup "x" "y"]) :=
  ((getAWSClient_secret_path_single_lookup_missing_field
      (envWith "x" "y" [("aws_access_key_id", "AK")])
      { AwsCredsSecretIDKey := "", AwsCredsSecretAccessKey := "", AwsToken := "",
        AwsRegion := "us-east-1", SecretName := "x", NameSpace := "y" }
      (by decide) (by decide) (by decide)).2
    { Data := [("aws_access_key_id", "AK")] } (by simp [envWith])).2
    (by simp [awsCredsSecretAccessKey]) "AK" (by simp [awsCredsSecretIDKey])

/-- Claim C3: with a full secret reference, the inline credential fields are
never consulted: two inputs agreeing on region, secret name, namespace and
token (reference fields non-empty, region non-empty) resolve to the same
result and trace, whatever their inline access key and inline secret hold. -/
theorem getAWSClient_secret_ref_ignores_inline
    (env : Env) (i1 i2 : NewAwsClientInput)
    (hr : i1.AwsRegion = i2.AwsRegion) (hr0 : i1.AwsRegion ≠ "")
    (hs : i1.SecretName = i2.SecretName) (hs0 : i1.SecretName ≠ "")
    (hn : i1.NameSpace = i2.NameSpace) (hn0 : i1.NameSpace ≠ "")
    (ht : i1.AwsToken = i2.AwsToken) :
    GetAWSClient env i1 = GetAWSClient env i2 := by
  have hr2 : i2.AwsRegion ≠ "" := hr ▸ hr0
  have hs2 : i2.SecretName ≠ "" := hs ▸ hs0
  have hn2 : i2.NameSpace ≠ "" := hn ▸ hn0
  unfold GetAWSClient
  rw [if_neg hr0, if_neg hr2, if_pos ⟨hs0, hn0⟩, if_pos ⟨hs2, hn2⟩, hs, hn, ht, hr]

/-- Witness for C3: two inputs differing only in their inline credentials
give the same outcome when the secret reference is set. -/
theorem getAWSClient_secret_ref_ignores_inline_witness :
    GetAWSClient (envWith "x" "y" [("aws_access_key_id", "AK"), ("aws_secret_access_key", "SK")])
      { AwsCredsSecretIDKey := "inlineA", AwsCredsSecretAccessKey := "inlineS",
        AwsToken := "tok", AwsRegion := "us-east-1", SecretName := "x", NameSpace := "y" } =
    GetAWSClient (envWith "x" "y" [("aws_access_key_id", "AK"), ("aws_secret_access_key", "SK")])
      { AwsCredsSecretIDKey := "otherA", AwsCredsSecretAccessKey := "otherS",
        AwsToken := "tok", AwsRegion := "us-east-1", SecretName := "x", NameSpace := "y" } :=
  getAWSClient_secret_ref_ignores_inline _ _ _
    rfl (by decide) rfl (by decide) rfl (by decide) rfl

/-- Claim C4: with a non-empty region, no full secret reference, an empty
inline access key and a non-empty inline secret, resolution fails with the
configuration error and the trace is empty: no environment write and no
session construction. -/
theorem getAWSClient_partial_inline_fails_without_calls
    (env : Env) (input : NewAwsClientInput)
    (hr : input.AwsRegion ≠ "")
    (href : ¬ (input.SecretName ≠ "" ∧ input.NameSpace ≠ ""))
    (hid : input.AwsCredsSecretIDKey = "")
    (hsk : input.AwsCredsSecretAccessKey ≠ "") :
    GetAWSClient env input =
      (Except.error "getAWSClient: NoAwsCredentials or Secret", []) := by
  unfold GetAWSClient
  rw [if_neg hr, if_neg href, if_pos ⟨hid, hsk⟩]

/-- Witness for C4 at a concrete input with an empty secret reference. -/
theorem getAWSClient_partial_inline_fails_without_calls_witness :
    GetAWSClient envOk
      { AwsCredsSecretIDKey := "", AwsCredsSecretAccessKey := "SK", AwsToken := "",
        AwsRegion := "us-east-1", SecretName := "", NameSpace := "" } =
      (Except.error "getAWSClient: NoAwsCredentials or Secret", []) :=
  getAWSClient_partial_inline_fails_without_calls envOk _
    (by decide) (by decide) rfl (by decide)

/-- Claim C5: with an empty token, `NewClient` writes the access key and
secret into the process-wide variables `AWS_ACCESS_KEY_ID` and
`AWS_SECRET_ACCESS_KEY` and builds the session config with no static
credentials; with a non-empty token it performs no environment write and the
session config carries the static credential triple built from key, secret
and token. -/
theorem newClient_env_writes_vs_static_creds
    (env : Env) (accessID accessSecret token region : String) :
    (token = "" →
      (NewClient env accessID accessSecret token region).2 =
        [Event.setEnv "AWS_ACCESS_KEY_ID" accessID,
         Event.setEnv "AWS_SECRET_ACCESS_KEY" accessSecret,
         Event.newSession { region := region, credentials := none }]) ∧
    (token ≠ "" →
      (NewClient env accessID accessSecret token region).2 =
        [Event.newSession
          { region := region, credentials := some (accessID, accessSecret, token) }]) := by
  constructor <;> intro htok <;> rw [newClient_trace] <;> simp [htok]

/-- Witness for C5: both token cases evaluated at concrete credentials. -/
theorem newClient_env_writes_vs_static_creds_witness :
    (NewClient envOk "AK" "SK" "" "us-east-1").2 =
      [Event.setEnv "AWS_ACCESS_KEY_ID" "AK",
       Event.setEnv "AWS_SECRET_ACCESS_KEY" "SK",
       Event.newSession { region := "us-east-1", credentials := none }] ∧
    (NewClient envOk "AK" "SK" "tok" "us-east-1").2 =
      [Event.newSession
        { region := "us-east-1", credentials := some ("AK", "SK", "tok") }] :=
  ⟨(newClient_env_writes_vs_static_creds envOk "AK" "SK" "" "us-east-1").1 rfl,
   (newClient_env_writes_vs_static_creds envOk "AK" "SK" "tok" "us-east-1").2 (by decide)⟩

/-- Claim C9: a partial secret reference (exactly one of secret name and
namespace non-empty) is silently skipped: no lookup call appears in the
trace, and the run is identical to the run on the same input with both
reference fields cleared, which resolves from the inline fields. -/
theorem getAWSClient_partial_secret_ref_skips_lookup
    (env : Env) (input : NewAwsClientInput)
    (hr : input.AwsRegion ≠ "")
    (hxor : (input.SecretName = "" ∧ input.NameSpace ≠ "") ∨
            (input.SecretName ≠ "" ∧ input.NameSpace = "")) :
    countLookups (GetAWSClient env input).2 = 0 ∧
    GetAWSClient env input =
      GetAWSClient env { input with SecretName := "", NameSpace := "" } := by
  have href : ¬ (input.SecretName ≠ "" ∧ input.NameSpace ≠ "") := by
    rcases hxor with ⟨h1, _⟩ | ⟨_, h2⟩
    · simp [h1]
    · simp [h2]
  constructor
  · unfold GetAWSClient
    rw [if_neg hr, if_neg href]
    by_cases hc : input.AwsCredsSecretIDKey = "" ∧ input.AwsCredsSecretAccessKey ≠ ""
    · rw [if_pos hc]
      simp [countLookups, isSecretLookup]
    · rw [if_neg hc]
      exact newClient_no_lookup env _ _ _ _
  · simp [GetAWSClient, hr, href]

/-- Witness for C9: secret name set but namespace empty; the run matches the
cleared-reference run and its trace has no lookup. -/
theorem getAWSClient_partial_secret_ref_skips_lookup_witness :
    countLookups (GetAWSClient envOk
      { AwsCredsSecretIDKey := "AK", AwsCredsSecretAccessKey := "SK", AwsToken := "",
        AwsRegion := "us-east-1", SecretName := "aws-creds", NameSpace := "" }).2 = 0 ∧
    GetAWSClient envOk
      { AwsCredsSecretIDKey := "AK", AwsCredsSecretAccessKey := "SK", AwsToken := "",
        AwsRegion := "us-east-1", SecretName := "aws-creds", NameSpace := "" } =
    GetAWSClient envOk
      { AwsCredsSecretIDKey := "AK", AwsCredsSecretAccessKey := "SK", AwsToken := "",
        AwsRegion := "us-east-1", SecretName := "", NameSpace := "" } :=
  getAWSClient_partial_secret_ref_skips_lookup envOk
    { AwsCredsSecretIDKey := "AK", AwsCredsSecretAccessKey := "SK", AwsToken := "",
      AwsRegion := "us-east-1", SecretName := "aws-creds", NameSpace := "" }
    (by decide) (Or.inr ⟨by decide, rfl⟩)

/-- Claim C10: the secret-field check tests key presence only: a fetched
record mapping both credential fields to empty strings passes the check and
the client is built from the empty values (no missing-field failure). -/
theorem getAWSClient_secret_fields_presence_only
    (env : Env) (input : NewAwsClientInput)
    (hr : input.AwsRegion ≠ "") (hs : input.SecretName ≠ "") (hn : input.NameSpace ≠ "")
    (secret : Secret)
    (hget : env.kubeGet input.SecretName input.NameSpace = Except.ok secret)
    (hid : secret.Data.lookup awsCredsSecretIDKey = some "")
    (hsk : secret.Data.lookup awsCredsSecretAccessKey = some "") :
    GetAWSClient env input =
      ((NewClient env "" "" input.AwsToken input.AwsRegion).1,
       Event.secretLookup input.SecretName input.NameSpace ::
         (NewClient env "" "" input.AwsToken input.AwsRegion).2) := by
  unfold GetAWSClient
  rw [if_neg hr, if_pos ⟨hs, hn⟩]
  simp [hget, hid, hsk]

/-- Witness for C10: both fields present with empty values; resolution
succeeds with a session built from the default (environment) credentials and
the trace shows the empty-string environment writes. -/
theorem getAWSClient_secret_fields_presence_only_witness :
    GetAWSClient (envWith "x" "y" [("aws_access_key_id", ""), ("aws_secret_access_key", "")])
      { AwsCredsSecretIDKey := "", AwsCredsSecretAccessKey := "", AwsToken := "",
        AwsRegion := "us-east-1", SecretName := "x", NameSpace := "y" } =
      ((NewClient (envWith "x" "y" [("aws_access_key_id", ""), ("aws_secret_access_key", "")])
          "" "" "" "us-east-1").1,
       Event.secretLookup "x" "y" ::
         (NewClient (envWith "x" "y" [("aws_access_key_id", ""), ("aws_secret_access_key", "")])
            "" "" "" "us-east-1").2) :=
  getAWSClient_secret_fields_presence_only
    (envWith "x" "y" [("aws_access_key_id", ""), ("aws_secret_access_key", "")])
    { AwsCredsSecretIDKey := "", AwsCredsSecretAccessKey := "", AwsToken := "",
      AwsRegion := "us-east-1", SecretName := "x", NameSpace := "y" }
    (by decide) (by decide) (by decide)
    { Data := [("aws_access_key_id", ""), ("aws_secret_access_key", "")] }
    (by simp [envWith]) rfl rfl

/-- Counterexample to claim C7: the required field names carry the `aws_`
prefix.  A stored secret holding exactly the claimed names `access_key_id`
and `secret_access_key` still fails, with the error naming
`aws_access_key_id`; and the code's constants differ from the claimed
names. -/
theorem secret_field_names_counterexample :
    awsCredsSecretIDKey ≠ "access_key_id" ∧
    awsCredsSecretAccessKey ≠ "secret_access_key" ∧
    GetAWSClient (envWith "x" "y" [("access_key_id", "AK"), ("secret_access_key", "SK")])
      { AwsCredsSecretIDKey := "", AwsCredsSecretAccessKey := "", AwsToken := "",
        AwsRegion := "us-east-1", SecretName := "x", NameSpace := "y" } =
      (Except.error "AWS credentials secret x did not contain key aws_access_key_id",
       [Event.secretLookup "x" "y"]) := by
  exact ⟨by decide, by decide, rfl⟩

/-- Claim C7 as amended: on the secret-reference path the two field names
whose absence triggers the missing-field failure are `aws_access_key_id`
and `aws_secret_access_key`; when both keys are present the run proceeds to
build the client from their values. -/
theorem secret_field_names_amended
    (env : Env) (input : NewAwsClientInput)
    (hr : input.AwsRegion ≠ "") (hs : input.SecretName ≠ "") (hn : input.NameSpace ≠ "")
    (secret : Secret)
    (hget : env.kubeGet input.SecretName input.NameSpace = Except.ok secret) :
    (secret.Data.lookup "aws_access_key_id" = none →
      GetAWSClient env input =
        (Except.error ("AWS credentials secret " ++ input.SecretName ++
          " did not contain key " ++ "aws_access_key_id"),
         [Event.secretLookup input.SecretName input.NameSpace])) ∧
    (∀ v, secret.Data.lookup "aws_access_key_id" = some v →
      secret.Data.lookup "aws_secret_access_key" = none →
      GetAWSClient env input =
        (Except.error ("AWS credentials secret " ++ input.SecretName ++
          " did not contain key " ++ "aws_secret_access_key"),
         [Event.secretLookup input.SecretName input.NameSpace])) ∧
    (∀ v w, secret.Data.lookup "aws_access_key_id" = some v →
      secret.Data.lookup "aws_secret_access_key" = some w →
      GetAWSClient env input =
        ((NewClient env v w input.AwsToken input.AwsRegion).1,
         Event.secretLookup input.SecretName input.NameSpace ::
           (NewClient env v w input.AwsToken input.AwsRegion).2)) := by
  refine ⟨fun hid => ?_, fun v hid hsk => ?_, fun v w hid hsk => ?_⟩
  · unfold GetAWSClient
    rw [if_neg hr, if_pos ⟨hs, hn⟩]
    simp [hget, hid, awsCredsSecretIDKey, awsCredsSecretAccessKey]
  · unfold GetAWSClient
    rw [if_neg hr, if_pos ⟨hs, hn⟩]
    simp [hget, hid, hsk, awsCredsSecretIDKey, awsCredsSecretAccessKey]
  · unfold GetAWSClient
    rw [if_neg hr, if_pos ⟨hs, hn⟩]
    simp [hget, hid, hsk, awsCredsSecretIDKey, awsCredsSecretAccessKey]

/-- Witness for the amended C7: an empty stored record fails naming
`aws_access_key_id`. -/
theorem secret_field_names_amended_witness :
    GetAWSClient (envWith "x" "y" [])
      { AwsCredsSecretIDKey := "", AwsCredsSecretAccessKey := "", AwsToken := "",
        AwsRegion := "us-east-1", SecretName := "x", NameSpace := "y" } =
      (Except.error ("AWS credentials secret " ++ "x" ++
        " did not contain key " ++ "aws_access_key_id"),
       [Event.secretLookup "x" "y"]) :=
  (secret_field_names_amended (envWith "x" "y" [])
    { AwsCredsSecretIDKey := "", AwsCredsSecretAccessKey := "", AwsToken := "",
      AwsRegion := "us-east-1", SecretName := "x", NameSpace := "y" }
    (by decide) (by decide) (by decide)
    { Data := [] } (by simp [envWith])).1 rfl

/-!
Facade passthrough model.  In client.go the `AwsClient` fields are the Go
interface types `ec2iface.EC2API`, `elbiface.ELBAPI`, `elbv2iface.ELBV2API`
and `route53iface.Route53API`; each facade method forwards its single
argument to the matching method of one field.  Each interface method is
modelled as a `RemoteOp`: an abstract input type, an abstract output type,
and the remote call returning the output pointer and the error, either
possibly nil.  Keeping the types abstract means the passthrough cannot
inspect or rebuild the values it forwards.
-/

/-- One remote SDK operation behind a Go interface: input type, output type,
and the call returning `(outputPointer, error)`. -/
structure RemoteOp : Type 1 where
  In : Type
  Out : Type
  call : In → Option Out × Option String

/-- The subset of `ec2iface.EC2API` used by the facade. -/
structure EC2API : Type 1 where
  AuthorizeSecurityGroupIngress : RemoteOp
  CreateSecurityGroup : RemoteOp
  DeleteSecurityGroup : RemoteOp
  DescribeSecurityGroups : RemoteOp
  RevokeSecurityGroupIngress : RemoteOp
  DescribeSubnets : RemoteOp
  CreateTags : RemoteOp

/-- The subset of `elbiface.ELBAPI` used by the facade. -/
structure ELBAPI : Type 1 where
  ApplySecurityGroupsToLoadBalancer : RemoteOp
  ConfigureHealthCheck : RemoteOp
  CreateLoadBalancer : RemoteOp
  CreateLoadBalancerListeners : RemoteOp
  DeleteLoadBalancerListeners : RemoteOp
  DeregisterInstancesFromLoadBalancer : RemoteOp
  DescribeLoadBalancers : RemoteOp
  DescribeTags : RemoteOp
  RegisterInstancesWithLoadBalancer : RemoteOp

/-- The subset of `elbv2iface.ELBV2API` used by the facade. -/
structure ELBV2API : Type 1 where
  DescribeLoadBalancers : RemoteOp
  DeleteLoadBalancer : RemoteOp
  CreateLoadBalancer : RemoteOp
  CreateTargetGroup : RemoteOp
  RegisterTargets : RemoteOp
  CreateListener : RemoteOp
  DescribeTargetGroups : RemoteOp
  AddTags : RemoteOp

/-- The subset of `route53iface.Route53API` used by the facade. -/
structure Route53API : Type 1 where
  ChangeResourceRecordSets : RemoteOp
  ListHostedZonesByName : RemoteOp

/-- The `AwsClient` struct of client.go seen as a facade over the four
interface-typed service clients. -/
structure AwsClientFacade : Type 1 where
  ec2Client : EC2API
  route53Client : Route53API
  elbClient : ELBAPI
  elbv2Client : ELBV2API

/-- client.go `func (c *AwsClient) ApplySecurityGroupsToLoadBalancer`. -/
def AwsClientFacade.ApplySecurityGroupsToLoadBalancer (c : AwsClientFacade)
    (i : c.elbClient.ApplySecurityGroupsToLoadBalancer.In) :
    Option c.elbClient.ApplySecurityGroupsToLoadBalancer.Out × Option String :=
  c.elbClient.ApplySecurityGroupsToLoadBalancer.call i

/-- client.go `func (c *AwsClient) ConfigureHealthCheck`. -/
def AwsClientFacade.ConfigureHealthCheck (c : AwsClientFacade)
    (i : c.elbClient.ConfigureHealthCheck.In) :
    Option c.elbClient.ConfigureHealthCheck.Out × Option String :=
  c.elbClient.ConfigureHealthCheck.call i

/-- client.go `func (c *AwsClient) CreateLoadBalancer`. -/
def AwsClientFacade.CreateLoadBalancer (c : AwsClientFacade)
    (i : c.elbClient.CreateLoadBalancer.In) :
    Option c.elbClient.CreateLoadBalancer.Out × Option String :=
  c.elbClient.CreateLoadBalancer.call i

/-- client.go `func (c *AwsClient) CreateLoadBalancerListeners`. -/
def AwsClientFacade.CreateLoadBalancerListeners (c : AwsClientFacade)
    (i : c.elbClient.CreateLoadBalancerListeners.In) :
    Option c.elbClient.CreateLoadBalancerListeners.Out × Option String :=
  c.elbClient.CreateLoadBalancerListeners.call i

/-- client.go `func (c *AwsClient) DeleteLoadBalancerListeners`. -/
def AwsClientFacade.DeleteLoadBalancerListeners (c : AwsClientFacade)
    (i : c.elbClient.DeleteLoadBalancerListeners.In) :
    Option c.elbClient.DeleteLoadBalancerListeners.Out × Option String :=
  c.elbClient.DeleteLoadBalancerListeners.call i

/-- client.go `func (c *AwsClient) DeregisterInstancesFromLoadBalancer`. -/
def AwsClientFacade.DeregisterInstancesFromLoadBalancer (c : AwsClientFacade)
    (i : c.elbClient.DeregisterInstancesFromLoadBalancer.In) :
    Option c.elbClient.DeregisterInstancesFromLoadBalancer.Out × Option String :=
  c.elbClient.DeregisterInstancesFromLoadBalancer.call i

/-- client.go `func (c *AwsClient) DescribeLoadBalancers`. -/
def AwsClientFacade.DescribeLoadBalancers (c : AwsClientFacade)
    (i : c.elbClient.DescribeLoadBalancers.In) :
    Option c.elbClient.DescribeLoadBalancers.Out × Option String :=
  c.elbClient.DescribeLoadBalancers.call i

/-- client.go `func (c *AwsClient) DescribeTags`. -/
def AwsClientFacade.DescribeTags (c : AwsClientFacade)
    (i : c.elbClient.DescribeTags.In) :
    Option c.elbClient.DescribeTags.Out × Option String :=
  c.elbClient.DescribeTags.call i

/-- client.go `func (c *AwsClient) RegisterInstancesWithLoadBalancer`. -/
def AwsClientFacade.RegisterInstancesWithLoadBalancer (c : AwsClientFacade)
    (i : c.elbClient.RegisterInstancesWithLoadBalancer.In) :
    Option c.elbClient.RegisterInstancesWithLoadBalancer.Out × Option String :=
  c.elbClient.RegisterInstancesWithLoadBalancer.call i

/-- client.go `func (c *AwsClient) DescribeLoadBalancersV2`. -/
def AwsClientFacade.DescribeLoadBalancersV2 (c : AwsClientFacade)
    (i : c.elbv2Client.DescribeLoadBalancers.In) :
    Option c.elbv2Client.DescribeLoadBalancers.Out × Option String :=
  c.elbv2Client.DescribeLoadBalancers.call i

/-- client.go `func (c *AwsClient) DeleteLoadBalancerV2`. -/
def AwsClientFacade.DeleteLoadBalancerV2 (c : AwsClientFacade)
    (i : c.elbv2Client.DeleteLoadBalancer.In) :
    Option c.elbv2Client.DeleteLoadBalancer.Out × Option String :=
  c.elbv2Client.DeleteLoadBalancer.call i

/-- client.go `func (c *AwsClient) CreateLoadBalancerV2`. -/
def AwsClientFacade.CreateLoadBalancerV2 (c : AwsClientFacade)
    (i : c.elbv2Client.CreateLoadBalancer.In) :
    Option c.elbv2Client.CreateLoadBalancer.Out × Option String :=
  c.elbv2Client.CreateLoadBalancer.call i

/-- client.go `func (c *AwsClient) CreateTargetGroupV2`. -/
def AwsClientFacade.CreateTargetGroupV2 (c : AwsClientFacade)
    (i : c.elbv2Client.CreateTargetGroup.In) :
    Option c.elbv2Client.CreateTargetGroup.Out × Option String :=
  c.elbv2Client.CreateTargetGroup.call i

/-- client.go `func (c *AwsClient) RegisterTargetsV2`. -/
def AwsClientFacade.RegisterTargetsV2 (c : AwsClientFacade)
    (i : c.elbv2Client.RegisterTargets.In) :
    Option c.elbv2Client.RegisterTargets.Out × Option String :=
  c.elbv2Client.RegisterTargets.call i

/-- client.go `func (c *AwsClient) CreateListenerV2`. -/
def AwsClientFacade.CreateListenerV2 (c : AwsClientFacade)
    (i : c.elbv2Client.CreateListener.In) :
    Option c.elbv2Client.CreateListener.Out × Option String :=
  c.elbv2Client.CreateListener.call i

/-- client.go `func (c *AwsClient) DescribeTargetGroupsV2`. -/
def AwsClientFacade.DescribeTargetGroupsV2 (c : AwsClientFacade)
    (i : c.elbv2Client.DescribeTargetGroups.In) :
    Option c.elbv2Client.DescribeTargetGroups.Out × Option String :=
  c.elbv2Client.DescribeTargetGroups.call i

/-- client.go `func (c *AwsClient) AddTagsV2`. -/
def AwsClientFacade.AddTagsV2 (c : AwsClientFacade)
    (i : c.elbv2Client.AddTags.In) :
    Option c.elbv2Client.AddTags.Out × Option String :=
  c.elbv2Client.AddTags.call i

/-- client.go `func (c *AwsClient) ChangeResourceRecordSets`. -/
def AwsClientFacade.ChangeResourceRecordSets (c : AwsClientFacade)
    (i : c.route53Client.ChangeResourceRecordSets.In) :
    Option c.route53Client.ChangeResourceRecordSets.Out × Option String :=
  c.route53Client.ChangeResourceRecordSets.call i

/-- client.go `func (c *AwsClient) ListHostedZonesByName`. -/
def AwsClientFacade.ListHostedZonesByName (c : AwsClientFacade)
    (i : c.route53Client.ListHostedZonesByName.In) :
    Option c.route53Client.ListHostedZonesByName.Out × Option String :=
  c.route53Client.ListHostedZonesByName.call i

/-- client.go `func (c *AwsClient) AuthorizeSecurityGroupIngress`. -/
def AwsClientFacade.AuthorizeSecurityGroupIngress (c : AwsClientFacade)
    (i : c.ec2Client.AuthorizeSecurityGroupIngress.In) :
    Option c.ec2Client.AuthorizeSecurityGroupIngress.Out × Option String :=
  c.ec2Client.AuthorizeSecurityGroupIngress.call i

/-- client.go `func (c *AwsClient) CreateSecurityGroup`. -/
def AwsClientFacade.CreateSecurityGroup (c : AwsClientFacade)
    (i : c.ec2Client.CreateSecurityGroup.In) :
    Option c.ec2Client.CreateSecurityGroup.Out × Option String :=
  c.ec2Client.CreateSecurityGroup.call i

/-- client.go `func (c *AwsClient) DeleteSecurityGroup`. -/
def AwsClientFacade.DeleteSecurityGroup (c : AwsClientFacade)
    (i : c.ec2Client.DeleteSecurityGroup.In) :
    Option c.ec2Client.DeleteSecurityGroup.Out × Option String :=
  c.ec2Client.DeleteSecurityGroup.call i

/-- client.go `func (c *AwsClient) DescribeSecurityGroups`. -/
def AwsClientFacade.DescribeSecurityGroups (c : AwsClientFacade)
    (i : c.ec2Client.DescribeSecurityGroups.In) :
    Option c.ec2Client.DescribeSecurityGroups.Out × Option String :=
  c.ec2Client.DescribeSecurityGroups.call i

/-- client.go `func (c *AwsClient) RevokeSecurityGroupIngress`. -/
def AwsClientFacade.RevokeSecurityGroupIngress (c : AwsClientFacade)
    (i : c.ec2Client.RevokeSecurityGroupIngress.In) :
    Option c.ec2Client.RevokeSecurityGroupIngress.Out × Option String :=
  c.ec2Client.RevokeSecurityGroupIngress.call i

/-- client.go `func (c *AwsClient) DescribeSubnets`. -/
def AwsClientFacade.DescribeSubnets (c : AwsClientFacade)
    (i : c.ec2Client.DescribeSubnets.In) :
    Option c.ec2Client.DescribeSubnets.Out × Option String :=
  c.ec2Client.DescribeSubnets.call i

/-- client.go `func (c *AwsClient) CreateTags`. -/
def AwsClientFacade.CreateTags (c : AwsClientFacade)
    (i : c.ec2Client.CreateTags.In) :
    Option c.ec2Client.CreateTags.Out × Option String :=
  c.ec2Client.CreateTags.call i

/-- Claim C6: every facade passthrough method returns, on every input, the
exact output-and-error pair of the corresponding underlying interface
method: no field is mutated, no error is translated, no retry happens.
Quantifying over every facade (hence over every choice of abstract
input and output types and every underlying implementation) makes any
transformation in transit impossible. -/
theorem awsClientFacade_passthrough_identity (c : AwsClientFacade) :
    (∀ i, c.ApplySecurityGroupsToLoadBalancer i =
      c.elbClient.ApplySecurityGroupsToLoadBalancer.call i) ∧
    (∀ i, c.ConfigureHealthCheck i = c.elbClient.ConfigureHealthCheck.call i) ∧
    (∀ i, c.CreateLoadBalancer i = c.elbClient.CreateLoadBalancer.call i) ∧
    (∀ i, c.CreateLoadBalancerListeners i =
      c.elbClient.CreateLoadBalancerListeners.call i) ∧
    (∀ i, c.DeleteLoadBalancerListeners i =
      c.elbClient.DeleteLoadBalancerListeners.call i) ∧
    (∀ i, c.DeregisterInstancesFromLoadBalancer i =
      c.elbClient.DeregisterInstancesFromLoadBalancer.call i) ∧
    (∀ i, c.DescribeLoadBalancers i = c.elbClient.DescribeLoadBalancers.call i) ∧
    (∀ i, c.DescribeTags i = c.elbClient.DescribeTags.call i) ∧
    (∀ i, c.RegisterInstancesWithLoadBalancer i =
      c.elbClient.RegisterInstancesWithLoadBalancer.call i) ∧
    (∀ i, c.DescribeLoadBalancersV2 i = c.elbv2Client.DescribeLoadBalancers.call i) ∧
    (∀ i, c.DeleteLoadBalancerV2 i = c.elbv2Client.DeleteLoadBalancer.call i) ∧
    (∀ i, c.CreateLoadBalancerV2 i = c.elbv2Client.CreateLoadBalancer.call i) ∧
    (∀ i, c.CreateTargetGroupV2 i = c.elbv2Client.CreateTargetGroup.call i) ∧
    (∀ i, c.RegisterTargetsV2 i = c.elbv2Client.RegisterTargets.call i) ∧
    (∀ i, c.CreateListenerV2 i = c.elbv2Client.CreateListener.call i) ∧
    (∀ i, c.DescribeTargetGroupsV2 i = c.elbv2Client.DescribeTargetGroups.call i) ∧
    (∀ i, c.AddTagsV2 i = c.elbv2Client.AddTags.call i) ∧
    (∀ i, c.ChangeResourceRecordSets i =
      c.route53Client.ChangeResourceRecordSets.call i) ∧
    (∀ i, c.ListHostedZonesByName i = c.route53Client.ListHostedZonesByName.call i) ∧
    (∀ i, c.AuthorizeSecurityGroupIngress i =
      c.ec2Client.AuthorizeSecurityGroupIngress.call i) ∧
    (∀ i, c.CreateSecurityGroup i = c.ec2Client.CreateSecurityGroup.call i) ∧
    (∀ i, c.DeleteSecurityGroup i = c.ec2Client.DeleteSecurityGroup.call i) ∧
    (∀ i, c.DescribeSecurityGroups i = c.ec2Client.DescribeSecurityGroups.call i) ∧
    (∀ i, c.RevokeSecurityGroupIngress i =
      c.ec2Client.RevokeSecurityGroupIngress.call i) ∧
    (∀ i, c.DescribeSubnets i = c.ec2Client.DescribeSubnets.call i) ∧
    (∀ i, c.CreateTags i = c.ec2Client.CreateTags.call i) :=
  ⟨fun _ => rfl, fun _ => rfl, fun _ => rfl, fun _ => rfl, fun _ => rfl,
   fun _ => rfl, fun _ => rfl, fun _ => rfl, fun _ => rfl, fun _ => rfl,
   fun _ => rfl, fun _ => rfl, fun _ => rfl, fun _ => rfl, fun _ => rfl,
   fun _ => rfl, fun _ => rfl, fun _ => rfl, fun _ => rfl, fun _ => rfl,
   fun _ => rfl, fun _ => rfl, fun _ => rfl, fun _ => rfl, fun _ => rfl,
   fun _ => rfl⟩

/-- A remote operation on natural numbers used for concrete facade runs:
the remote call answers the input itself with no error. -/
def opNat : RemoteOp :=
  { In := Nat, Out := Nat, call := fun n => (some n, none) }

/-- A concrete facade whose every underlying operation is `opNat`. -/
def facadeNat : AwsClientFacade :=
  { ec2Client :=
      { AuthorizeSecurityGroupIngress := opNat, CreateSecurityGroup := opNat,
        DeleteSecurityGroup := opNat, DescribeSecurityGroups := opNat,
        RevokeSecurityGroupIngress := opNat, DescribeSubnets := opNat,
        CreateTags := opNat },
    route53Client :=
      { ChangeResourceRecordSets := opNat, ListHostedZonesByName := opNat },
    elbClient :=
      { ApplySecurityGroupsToLoadBalancer := opNat, ConfigureHealthCheck := opNat,
        CreateLoadBalancer := opNat, CreateLoadBalancerListeners := opNat,
        DeleteLoadBalancerListeners := opNat,
        DeregisterInstancesFromLoadBalancer := opNat,
        DescribeLoadBalancers := opNat, DescribeTags := opNat,
        RegisterInstancesWithLoadBalancer := opNat },
    elbv2Client :=
      { DescribeLoadBalancers := opNat, DeleteLoadBalancer := opNat,
        CreateLoadBalancer := opNat, CreateTargetGroup := opNat,
        RegisterTargets := opNat, CreateListener := opNat,
        DescribeTargetGroups := opNat, AddTags := opNat } }

/-- Witness for C6: on the concrete facade, a passthrough call returns the
underlying remote answer unchanged. -/
theorem awsClientFacade_passthrough_identity_witness :
    facadeNat.DescribeLoadBalancersV2 (3 : Nat) =
      (some (3 : Nat), (none : Option String)) :=
  ((awsClientFacade_passthrough_identity facadeNat).2.2.2.2.2.2.2.2.2.1
    (3 : Nat)).trans rfl

/-!
Existence-check helper.  `DoesELBExist` is declared in the `Client`
interface of client.go (line 92) but its body is not among the source
files; it is modelled from the spec below.
-/

/-- Modelled from the spec: the load-balancer descriptor returned by the
existence check (the `*AWSLoadBalancer` of the interface declaration, whose
definition is not under src); fields per the spec's
`LoadBalancerDescriptor`: identifier, type, scheme, target-group
reference. -/
structure AWSLoadBalancer where
  identifier : String
  lbType : String
  scheme : String
  targetGroupRef : String
deriving DecidableEq, Repr

/-- Outcome of the remote describe call issued for a load-balancer name:
either the list of matching descriptors or an error code. -/
inductive DescribeOutcome where
  | ok (lbs : List AWSLoadBalancer)
  | err (code : String)
deriving DecidableEq, Repr

/-- Modelled from the spec: the specific not-found error code of the remote
load-balancer API that the existence check treats as a negative result. -/
def elbNotFoundCode : String := "LoadBalancerNotFound"

/-- Modelled from the spec: the body of `DoesELBExist` is not under src
(only its declaration in the `Client` interface, client.go line 92).  Per
spec sections 4.3 and 8: issue one describe call for the name; treat the
specific not-found error code as a negative result `(false, nil, nil)`; any
other error as a failure; a non-empty result as success with the descriptor
returned. -/
def DoesELBExist (describe : String → DescribeOutcome) (elbName : String) :
    Bool × Option AWSLoadBalancer × Option String :=
  match describe elbName with
  | DescribeOutcome.err code =>
      if code = elbNotFoundCode then (false, none, none)
      else (false, none, some code)
  | DescribeOutcome.ok [] => (false, none, none)
  | DescribeOutcome.ok (lb :: _) => (true, some lb, none)

/-- Claim C8: when the describe call reports the specific not-found code the
helper answers `(false, none, none)` rather than an error; any other error
code is surfaced as a failure; a non-empty describe result is success with
the descriptor returned. -/
theorem doesELBExist_not_found_negative
    (describe : String → DescribeOutcome) (elbName : String) :
    (describe elbName = DescribeOutcome.err elbNotFoundCode →
      DoesELBExist describe elbName = (false, none, none)) ∧
    (∀ code, code ≠ elbNotFoundCode → describe elbName = DescribeOutcome.err code →
      DoesELBExist describe elbName = (false, none, some code)) ∧
    (∀ lb rest, describe elbName = DescribeOutcome.ok (lb :: rest) →
      DoesELBExist describe elbName = (true, some lb, none)) := by
  refine ⟨fun h => ?_, fun code hc h => ?_, fun lb rest h => ?_⟩
  · unfold DoesELBExist
    rw [h]
    simp
  · unfold DoesELBExist
    rw [h]
    simp [hc]
  · unfold DoesELBExist
    rw [h]

/-- Witness for C8: a remote API that reports every name as not found makes
the helper answer negatively with no error. -/
theorem doesELBExist_not_found_negative_witness :
    DoesELBExist (fun _ => DescribeOutcome.err elbNotFoundCode) "rh-api" =
      (false, none, none) :=
  (doesELBExist_not_found_negative
    (fun _ => DescribeOutcome.err elbNotFoundCode) "rh-api").1 rfl
